import Mathlib

/-!
Shallow embedding of the ts-alexa-velux-idp Lambda.

The first source file (src/index.ts) is an AWS Lambda with a router
(`handler`) dispatching to three request handlers: `handleAuthorize`,
`handleTokenExchange` and `handleRegisterUser`, all working against a
DynamoDB record store.  The second source file holds standalone OAuth
storage helpers, among them `validateAuthorizationCode`.

Modelling choices:
- DynamoDB tables become association lists keyed by their primary key;
  `put` replaces the item with the same key, `get` is a first-match lookup.
- External effects are explicit parameters: `now` stands for every
  `Date.now()` call made while serving one request, `fresh` for the value
  returned by `uuidv4()`, `decodeForm` for the composite
  base64-decode + `URLSearchParams` parse (total, never throws),
  `parseJson` for `JSON.parse` on the register body (throws on invalid
  JSON, modelled as `Except` carrying the raw error text), and `Upstream`
  for the shared Velux client (its `makeTokenRequest` result and the
  presence of `shared.state.tokenData` come from the same login call and
  are modelled as one `Option`; `getHomeInfoWithRetry` data is a field).
- JavaScript truthiness checks on `string | null | undefined` values
  (`!x`) are `falsy` below: null/undefined and the empty string are falsy.
- Response bodies are structured values mirroring the exact
  `JSON.stringify` payloads of the source; the `Location` header is kept,
  other headers carry no claim-relevant information and are dropped.
- A thrown exception is an `Except.error`; the router catch-all turns it
  into the 500 response.  No store write precedes any throw point inside
  `handleRegisterUser`, so the pre-request store is returned there.
-/

set_option autoImplicit false

namespace VeluxIdp

/-- JavaScript falsiness of a `string | null | undefined` value:
`null`/`undefined` (here `none`) and the empty string are falsy. -/
def falsy : Option String → Bool
  | none => true
  | some s => s == ""

/-- One item of the authorization-code table (`shared.Table.AUTH`).
`handleAuthorize` stores `code`, `clientId`, `redirectUri`, `expiresAt`;
`handleRegisterUser` stores `code`, `veluxUserId`, `expiresAt`; fields a
writer omits are `undefined`, i.e. `none`. -/
structure AuthItem where
  code : String
  clientId : Option String := none
  redirectUri : Option String := none
  veluxUserId : Option String := none
  expiresAt : Nat
  deriving DecidableEq, Repr

/-- One item of the access-token table (`shared.Table.TOKEN`). -/
structure TokenItem where
  token : String
  clientId : String
  veluxUserId : Option String := none
  createdAt : Nat
  expiresAt : Nat
  deriving DecidableEq, Repr

/-- One item of the user table (`shared.Table.USER`): the spread `UserData`
plus `createdAt`.  `bridge` comes from `...find(...)?.id!` and so can be
`undefined` at runtime when no `"NXG"` module exists. -/
structure UserItem where
  username : String
  password : String
  home_id : String
  bridge : Option String := none
  access_token : String
  refresh_token : String
  createdAt : Nat
  deriving DecidableEq, Repr

/-- The record store: the three DynamoDB tables used by the Lambda. -/
structure Store where
  auth : List AuthItem
  token : List TokenItem
  user : List UserItem
  deriving DecidableEq, Repr

/-- DynamoDB `put` on the auth table: replaces the item with the same key. -/
def putAuth (tbl : List AuthItem) (item : AuthItem) : List AuthItem :=
  item :: tbl.filter (fun r => r.code != item.code)

/-- DynamoDB `get` on the auth table by primary key `code`. -/
def getAuth (tbl : List AuthItem) (code : String) : Option AuthItem :=
  tbl.find? (fun r => r.code == code)

/-- DynamoDB `put` on the token table: replaces the item with the same key. -/
def putToken (tbl : List TokenItem) (item : TokenItem) : List TokenItem :=
  item :: tbl.filter (fun r => r.token != item.token)

/-- DynamoDB `get` on the token table by primary key `token`. -/
def getToken (tbl : List TokenItem) (token : String) : Option TokenItem :=
  tbl.find? (fun r => r.token == token)

/-- DynamoDB `put` on the user table: replaces the item with the same key. -/
def putUser (tbl : List UserItem) (item : UserItem) : List UserItem :=
  item :: tbl.filter (fun r => r.username != item.username)

/-- Token pair returned by the vendor login
(`shared.makeTokenRequest("password")`). -/
structure Tokens where
  AccessToken : String
  RefreshToken : String
  deriving DecidableEq, Repr

/-- One home module of the vendor home-info payload. -/
structure HomeModule where
  id : String
  type : String
  deriving DecidableEq, Repr

/-- One home of the vendor home-info payload. -/
structure Home where
  id : String
  modules : List HomeModule
  deriving DecidableEq, Repr

/-- The `body` object of the vendor home-info payload. -/
structure HomesBody where
  homes : List Home
  deriving DecidableEq, Repr

/-- `homeInfoJSON.data`: the raw vendor home data echoed in the register
response. -/
structure HomeData where
  body : HomesBody
  deriving DecidableEq, Repr

/-- Structured response body, mirroring the exact `JSON.stringify`
payloads of src/index.ts (`raw` is the literal string body of the 302). -/
inductive RespBody where
  | raw (s : String)
  | errorMsg (msg : String)
  | tokenJson (access_token : String) (token_type : String) (expires_in : Nat)
  | registerJson (code : String) (homeInfo : HomeData)
  deriving DecidableEq, Repr

/-- The `APIGatewayProxyResult`: status code, optional `Location` header
and body.  Content-Type headers carry no claim-relevant information. -/
structure Response where
  statusCode : Nat
  location : Option String := none
  body : RespBody
  deriving DecidableEq, Repr

/-- Query parameters of the authorize request
(`APIGatewayProxyEventQueryStringParameters`). -/
structure QueryParams where
  client_id : Option String := none
  redirect_uri : Option String := none
  state : Option String := none
  deriving DecidableEq, Repr

/-- Result of base64-decoding the token body and reading the four fields
off `URLSearchParams`: `params.get` yields `null` (`none`) for an absent
field and the raw (possibly empty) string otherwise. -/
structure TokenForm where
  code : Option String := none
  client_id : Option String := none
  redirect_uri : Option String := none
  grant_type : Option String := none
  deriving DecidableEq, Repr

/-- Fields destructured from the parsed register-user JSON body; a field
missing from the object destructures to `undefined`, i.e. `none`. -/
structure RegJson where
  velux_user_id : Option String := none
  velux_password : Option String := none
  deriving DecidableEq, Repr

/-- GET /authorize handler (src/index.ts lines 45-81). -/
def handleAuthorize (params : Option QueryParams) (store : Store)
    (now : Nat) (fresh : String) : Response × Store :=
  match params with
  | none =>
    ({ statusCode := 400, body := .errorMsg "Missing required parameters" }, store)
  | some p =>
    if falsy p.client_id || falsy p.redirect_uri then
      ({ statusCode := 400, body := .errorMsg "Missing required parameters" }, store)
    else
      let client_id := p.client_id.getD ""
      let redirect_uri := p.redirect_uri.getD ""
      let authCode := fresh
      let item : AuthItem :=
        { code := authCode
          clientId := some client_id
          redirectUri := some redirect_uri
          expiresAt := now + 10 * 60 * 1000 }
      let redirectLocation :=
        redirect_uri ++ "?code=" ++ authCode ++ "&state=" ++
          (if falsy p.state then "" else p.state.getD "")
      ({ statusCode := 302, location := some redirectLocation, body := .raw "" },
       { store with auth := putAuth store.auth item })

/-- POST /token handler (src/index.ts lines 83-174).  `decodeForm`
stands for `Buffer.from(body, "base64").toString("utf-8")` followed by
`new URLSearchParams(...)` and the four `get` calls. -/
def handleTokenExchange (decodeForm : String → TokenForm)
    (body : Option String) (store : Store) (now : Nat) (fresh : String) :
    Response × Store :=
  if falsy body then
    ({ statusCode := 400, body := .errorMsg "Missing request body" }, store)
  else
    let f := decodeForm (body.getD "")
    if falsy f.code || falsy f.client_id || falsy f.redirect_uri ||
        falsy f.grant_type then
      ({ statusCode := 400, body := .errorMsg "Missing required parameters" }, store)
    else if f.grant_type != some "authorization_code" then
      ({ statusCode := 400, body := .errorMsg "Invalid grant type" }, store)
    else
      match getAuth store.auth (f.code.getD "") with
      | none =>
        ({ statusCode := 400,
           body := .errorMsg "Invalid or expired authorization code" }, store)
      | some item =>
        if item.expiresAt < now then
          ({ statusCode := 400,
             body := .errorMsg "Invalid or expired authorization code" }, store)
        else
          let accessToken := fresh
          let tok : TokenItem :=
            { token := accessToken
              clientId := f.client_id.getD ""
              veluxUserId := item.veluxUserId
              createdAt := now
              expiresAt := now + 60 * 60 * 1000 }
          ({ statusCode := 200,
             body := .tokenJson accessToken "bearer" 3600 },
           { store with token := putToken store.token tok })

/-- The upstream Velux collaborator for one request: the login outcome
(`none` when `shared.state.tokenData` is absent, i.e. the login failed)
and the home-info data a successful flow would fetch. -/
structure Upstream where
  tokenData : Option Tokens
  homeInfo : HomeData
  deriving DecidableEq, Repr

/-- POST /register_user handler (src/index.ts lines 176-273).  `parseJson`
stands for `JSON.parse` plus the destructuring of the two fields; its
`Except.error` carries the raw parse-error text of a throwing
`JSON.parse`.  Reading `homes[0].id` from an empty `homes` array throws a
TypeError, another `Except.error`.  Both throw points precede every store
write. -/
def handleRegisterUser (parseJson : String → Except String RegJson)
    (upstream : Upstream) (body : Option String) (store : Store)
    (now : Nat) (fresh : String) : Except String (Response × Store) :=
  if falsy body then
    .ok ({ statusCode := 400, body := .errorMsg "Missing request body" }, store)
  else
    match parseJson (body.getD "") with
    | .error e => .error e
    | .ok parsedBody =>
      if falsy parsedBody.velux_user_id || falsy parsedBody.velux_password then
        .ok ({ statusCode := 400, body := .errorMsg "Missing required parameters" },
             store)
      else
        match upstream.tokenData with
        | none =>
          .ok ({ statusCode := 401,
                 body := .errorMsg "Error validating credentials against Velux backend!" },
               store)
        | some token =>
          match upstream.homeInfo.body.homes with
          | [] => .error "TypeError: Cannot read properties of undefined"
          | home :: _ =>
            let homeId := home.id
            let bridge := (home.modules.find? (fun m => m.type == "NXG")).map
              (fun m => m.id)
            let userItem : UserItem :=
              { username := parsedBody.velux_user_id.getD ""
                password := parsedBody.velux_password.getD ""
                home_id := homeId
                bridge := bridge
                access_token := token.AccessToken
                refresh_token := token.RefreshToken
                createdAt := now }
            let store1 := { store with user := putUser store.user userItem }
            let authItem : AuthItem :=
              { code := fresh
                veluxUserId := parsedBody.velux_user_id
                expiresAt := now + 10 * 60 * 1000 }
            let store2 := { store1 with auth := putAuth store1.auth authItem }
            .ok ({ statusCode := 200,
                   body := .registerJson fresh upstream.homeInfo }, store2)

/-- HTTP method of the inbound event. -/
inductive Method where
  | GET
  | POST
  deriving DecidableEq, Repr

/-- The parts of the `APIGatewayProxyEventV2` the Lambda reads. -/
structure Event where
  method : Method
  rawPath : String
  queryStringParameters : Option QueryParams := none
  body : Option String := none

/-- The exported Lambda entry point (src/index.ts lines 16-43): route on
exact method/path, catch any thrown error into the 500 response. -/
def handler (decodeForm : String → TokenForm)
    (parseJson : String → Except String RegJson) (upstream : Upstream)
    (event : Event) (store : Store) (now : Nat) (fresh : String) :
    Response × Store :=
  if event.method = .GET ∧ event.rawPath = "/authorize" then
    handleAuthorize event.queryStringParameters store now fresh
  else if event.method = .POST ∧ event.rawPath = "/token" then
    handleTokenExchange decodeForm event.body store now fresh
  else if event.method = .POST ∧ event.rawPath = "/register_user" then
    match handleRegisterUser parseJson upstream event.body store now fresh with
    | .ok r => r
    | .error _ =>
      ({ statusCode := 500, body := .errorMsg "Internal server error" }, store)
  else
    ({ statusCode := 404, body := .errorMsg "Unsupported operation" }, store)

/-- The standalone helper of the second source file: look up the code and
check stored `clientId`, `redirectUri` and strict non-expiry
(`expiresAt > Date.now()`).  A stored optional field compares against the
supplied string via JavaScript `===`, so an absent field never matches. -/
def validateAuthorizationCode (tbl : List AuthItem) (code : String)
    (clientId : String) (redirectUri : String) (now : Nat) : Bool :=
  match getAuth tbl code with
  | none => false
  | some item =>
    item.clientId == some clientId && item.redirectUri == some redirectUri &&
      decide (item.expiresAt > now)

theorem falsy_some_of_ne {s : String} (h : s ≠ "") : falsy (some s) = false := by
  simp [falsy, h]

theorem getAuth_putAuth_self (tbl : List AuthItem) (item : AuthItem) :
    getAuth (putAuth tbl item) item.code = some item := by
  simp [getAuth, putAuth, List.find?]

theorem getToken_putToken_self (tbl : List TokenItem) (item : TokenItem) :
    getToken (putToken tbl item) item.token = some item := by
  simp [getToken, putToken, List.find?]

theorem filter_putAuth_key_length (tbl : List AuthItem) (item : AuthItem) :
    ((putAuth tbl item).filter (fun r => r.code == item.code)).length = 1 := by
  have hnil : (tbl.filter (fun r => r.code != item.code)).filter
      (fun r => r.code == item.code) = [] := by
    rw [List.filter_filter]
    refine List.filter_eq_nil_iff.mpr (fun a _ => ?_)
    cases h : a.code == item.code <;> simp [h, bne]
  simp [putAuth, List.filter_cons, hnil]

/-- C1.  Round-trip: if an AuthorizationCode record with code `c` is in the
store (as persisted by the Authorize or Register handler) and a Token
Exchange request for `c` with all four fields present (non-empty) and
grant type "authorization_code" is processed while the record's
`expiresAt` has not passed, the handler returns HTTP 200 whose body has a
non-empty access token, token type "bearer" and expires_in 3600.  The
access token is `uuidv4()`, always a non-empty 36-character string, so the
hypothesis `fresh` nonempty reflects it. -/
theorem tokenExchange_roundtrip (df : String → TokenForm) (b : String)
    (store : Store) (now : Nat) (fresh c ci ru : String) (item : AuthItem)
    (hb : b ≠ "")
    (hf : df b = { code := some c, client_id := some ci,
                   redirect_uri := some ru,
                   grant_type := some "authorization_code" })
    (hc : c ≠ "") (hci : ci ≠ "") (hru : ru ≠ "")
    (hitem : getAuth store.auth c = some item)
    (hexp : now ≤ item.expiresAt)
    (hfresh : fresh ≠ "") :
    (handleTokenExchange df (some b) store now fresh).1.statusCode = 200 ∧
    (handleTokenExchange df (some b) store now fresh).1.body =
      RespBody.tokenJson fresh "bearer" 3600 ∧ fresh ≠ "" := by
  unfold handleTokenExchange
  simp [falsy, hb, hf, hc, hci, hru, hitem, hfresh, Nat.not_lt.mpr hexp]

/-- C2.  A Token Exchange request passing the field-presence and
grant-type checks whose code is unknown, or known but with `expiresAt`
strictly in the past, yields exactly the 400 "Invalid or expired
authorization code" response (in particular never 200) and leaves the
store untouched: no AccessToken record is written. -/
theorem tokenExchange_invalid_code (df : String → TokenForm) (b : String)
    (store : Store) (now : Nat) (fresh c ci ru : String)
    (hb : b ≠ "")
    (hf : df b = { code := some c, client_id := some ci,
                   redirect_uri := some ru,
                   grant_type := some "authorization_code" })
    (hc : c ≠ "") (hci : ci ≠ "") (hru : ru ≠ "")
    (hinv : getAuth store.auth c = none ∨
      ∃ item, getAuth store.auth c = some item ∧ item.expiresAt < now) :
    handleTokenExchange df (some b) store now fresh =
      ({ statusCode := 400,
         body := RespBody.errorMsg "Invalid or expired authorization code" },
       store) ∧
    (handleTokenExchange df (some b) store now fresh).1.statusCode ≠ 200 := by
  have hmain : handleTokenExchange df (some b) store now fresh =
      ({ statusCode := 400,
         body := RespBody.errorMsg "Invalid or expired authorization code" },
       store) := by
    unfold handleTokenExchange
    rcases hinv with hnone | ⟨item, hsome, hlt⟩
    · simp [falsy, hb, hf, hc, hci, hru, hnone]
    · simp [falsy, hb, hf, hc, hci, hru, hsome, hlt]
  exact ⟨hmain, by rw [hmain]; simp⟩

/-- C8.  The expiry boundary is inclusive: a Token Exchange request with
all fields present and the correct grant type, for a stored code whose
`expiresAt` equals the current time exactly, is accepted with HTTP 200,
because the rejection compares with strict less-than. -/
theorem tokenExchange_expiry_boundary (df : String → TokenForm) (b : String)
    (store : Store) (now : Nat) (fresh c ci ru : String) (item : AuthItem)
    (hb : b ≠ "")
    (hf : df b = { code := some c, client_id := some ci,
                   redirect_uri := some ru,
                   grant_type := some "authorization_code" })
    (hc : c ≠ "") (hci : ci ≠ "") (hru : ru ≠ "")
    (hitem : getAuth store.auth c = some item)
    (hexp : item.expiresAt = now) :
    (handleTokenExchange df (some b) store now fresh).1.statusCode = 200 := by
  unfold handleTokenExchange
  simp [falsy, hb, hf, hc, hci, hru, hitem, hexp]

/-- C4.  An Authorize request with non-empty `client_id` and
`redirect_uri` yields HTTP 302 whose Location is `redirect_uri` followed
by the `code` and `state` query parameters with the freshly minted code,
and exactly one AuthorizationCode record with that code is persisted,
holding the given clientId and redirectUri and an `expiresAt` within
[now, now + 10 minutes]. -/
theorem authorize_ok (p : QueryParams) (store : Store) (now : Nat)
    (fresh ci ru : String)
    (hci : p.client_id = some ci) (hci' : ci ≠ "")
    (hru : p.redirect_uri = some ru) (hru' : ru ≠ "") :
    (handleAuthorize (some p) store now fresh).1.statusCode = 302 ∧
    (handleAuthorize (some p) store now fresh).1.location =
      some (ru ++ "?code=" ++ fresh ++ "&state=" ++
        (if falsy p.state then "" else p.state.getD "")) ∧
    getAuth (handleAuthorize (some p) store now fresh).2.auth fresh =
      some { code := fresh, clientId := some ci, redirectUri := some ru,
             expiresAt := now + 10 * 60 * 1000 } ∧
    ((handleAuthorize (some p) store now fresh).2.auth.filter
      (fun r => r.code == fresh)).length = 1 ∧
    now ≤ now + 10 * 60 * 1000 ∧
    now + 10 * 60 * 1000 ≤ now + 10 * 60 * 1000 := by
  have hget := getAuth_putAuth_self store.auth
    { code := fresh, clientId := some ci, redirectUri := some ru,
      expiresAt := now + 10 * 60 * 1000 }
  have hlen := filter_putAuth_key_length store.auth
    { code := fresh, clientId := some ci, redirectUri := some ru,
      expiresAt := now + 10 * 60 * 1000 }
  unfold handleAuthorize
  simp only [falsy_some_of_ne hci', falsy_some_of_ne hru', hci, hru]
  refine ⟨rfl, rfl, ?_, ?_, Nat.le_add_right _ _, Nat.le_refl _⟩
  · simpa using hget
  · simpa using hlen

/-- C5, counterexample.  A decoded token body can contain non-empty
`code`, `client_id` and `redirect_uri` together with a `grant_type`
(the empty string) that differs from "authorization_code", yet the
handler answers with the "Missing required parameters" error, not the
"Invalid grant type" one: the empty grant type is falsy and trips the
field-presence check first. -/
theorem tokenExchange_grant_claim_cex :
    (("" : String) ≠ "authorization_code") ∧
    (handleTokenExchange
      (fun _ => { code := some "c1", client_id := some "cid",
                  redirect_uri := some "https://r", grant_type := some "" })
      (some "Zg==") { auth := [], token := [], user := [] } 0 "tok").1.body =
      RespBody.errorMsg "Missing required parameters" ∧
    (handleTokenExchange
      (fun _ => { code := some "c1", client_id := some "cid",
                  redirect_uri := some "https://r", grant_type := some "" })
      (some "Zg==") { auth := [], token := [], user := [] } 0 "tok").1 ≠
      { statusCode := 400, body := RespBody.errorMsg "Invalid grant type" } := by
  refine ⟨by decide, by decide, by decide⟩

/-- C5, amended.  A Token Exchange request whose decoded body has
non-empty `code`, `client_id` and `redirect_uri` and a non-empty
`grant_type` differing from "authorization_code" yields exactly the 400
"Invalid grant type" response, regardless of whether the code is valid,
and writes nothing to the store. -/
theorem tokenExchange_invalid_grant (df : String → TokenForm) (b : String)
    (store : Store) (now : Nat) (fresh c ci ru g : String)
    (hb : b ≠ "")
    (hf : df b = { code := some c, client_id := some ci,
                   redirect_uri := some ru, grant_type := some g })
    (hc : c ≠ "") (hci : ci ≠ "") (hru : ru ≠ "")
    (hg : g ≠ "") (hg' : g ≠ "authorization_code") :
    handleTokenExchange df (some b) store now fresh =
      ({ statusCode := 400, body := RespBody.errorMsg "Invalid grant type" },
       store) := by
  unfold handleTokenExchange
  simp [falsy, hb, hf, hc, hci, hru, hg, hg']

/-- C6, counterexample.  A Token Exchange request with an absent body is
answered 400 with the "Missing request body" error, not with the
"Missing required parameters" one claimed. -/
theorem tokenExchange_missing_body_cex :
    (handleTokenExchange (fun _ => ({} : TokenForm)) none
      { auth := [], token := [], user := [] } 0 "tok").1.body =
      RespBody.errorMsg "Missing request body" ∧
    (handleTokenExchange (fun _ => ({} : TokenForm)) none
      { auth := [], token := [], user := [] } 0 "tok").1.body ≠
      RespBody.errorMsg "Missing required parameters" := by
  refine ⟨by decide, by decide⟩

/-- C6, amended.  A Token Exchange request whose body is absent
(`undefined`/`null`) or the empty string yields HTTP 400 with the
"Missing request body" error, and the store is untouched. -/
theorem tokenExchange_missing_body (df : String → TokenForm)
    (body : Option String) (store : Store) (now : Nat) (fresh : String)
    (hb : body = none ∨ body = some "") :
    handleTokenExchange df body store now fresh =
      ({ statusCode := 400, body := RespBody.errorMsg "Missing request body" },
       store) := by
  unfold handleTokenExchange
  rcases hb with hb | hb <;> simp [falsy, hb]

/-- C3.  Atomicity of Register User on vendor login failure: with
non-empty `velux_user_id` and `velux_password` and no token data from the
upstream login, the handler returns exactly the 401 response with the
"Error validating credentials against Velux backend!" error and the
record store is returned unchanged — neither a UserRecord nor an
AuthorizationCode is persisted. -/
theorem registerUser_login_failure (pj : String → Except String RegJson)
    (up : Upstream) (b : String) (store : Store) (now : Nat)
    (fresh u pw : String) (p : RegJson)
    (hb : b ≠ "") (hp : pj b = .ok p)
    (hu : p.velux_user_id = some u) (hu' : u ≠ "")
    (hpw : p.velux_password = some pw) (hpw' : pw ≠ "")
    (htok : up.tokenData = none) :
    handleRegisterUser pj up (some b) store now fresh =
      .ok ({ statusCode := 401,
             body := RespBody.errorMsg
               "Error validating credentials against Velux backend!" },
           store) := by
  unfold handleRegisterUser
  simp [falsy, hb, hp, hu, hu', hpw, hpw', htok]

/-- C7.  A POST /register_user request whose body is present but is not
valid JSON makes `JSON.parse` throw; the router's catch-all converts the
failure, whatever its raw error text `e`, into HTTP 500 with the fixed
"Internal server error" body — the parse error text never reaches the
response. -/
theorem registerUser_parse_failure_500 (df : String → TokenForm)
    (pj : String → Except String RegJson) (up : Upstream) (b e : String)
    (store : Store) (now : Nat) (fresh : String)
    (hb : b ≠ "") (hp : pj b = .error e) :
    handler df pj up
      { method := .POST, rawPath := "/register_user", body := some b }
      store now fresh =
      ({ statusCode := 500, body := RespBody.errorMsg "Internal server error" },
       store) := by
  unfold handler handleRegisterUser
  simp [falsy, hb, hp]

/-- C9.  An AuthorizationCode stored by the Authorize handler carries no
`veluxUserId`, so a successful Token Exchange of such a code persists an
AccessToken record whose `veluxUserId` is likewise absent: the issued
bearer token is linked to no user identity. -/
theorem authorize_code_unlinked (p : QueryParams) (store : Store)
    (t0 t1 : Nat) (c ci ru : String) (df : String → TokenForm)
    (b tok ci2 ru2 : String)
    (hci : p.client_id = some ci) (hci' : ci ≠ "")
    (hru : p.redirect_uri = some ru) (hru' : ru ≠ "")
    (hb : b ≠ "") (hc : c ≠ "")
    (hf : df b = { code := some c, client_id := some ci2,
                   redirect_uri := some ru2,
                   grant_type := some "authorization_code" })
    (hci2 : ci2 ≠ "") (hru2 : ru2 ≠ "")
    (ht : t1 ≤ t0 + 10 * 60 * 1000) :
    getAuth (handleAuthorize (some p) store t0 c).2.auth c =
      some { code := c, clientId := some ci, redirectUri := some ru,
             veluxUserId := none, expiresAt := t0 + 10 * 60 * 1000 } ∧
    getToken
      (handleTokenExchange df (some b)
        (handleAuthorize (some p) store t0 c).2 t1 tok).2.token tok =
      some { token := tok, clientId := ci2, veluxUserId := none,
             createdAt := t1, expiresAt := t1 + 60 * 60 * 1000 } := by
  have hstep : (handleAuthorize (some p) store t0 c).2.auth =
      putAuth store.auth
        { code := c, clientId := some ci, redirectUri := some ru,
          expiresAt := t0 + 10 * 60 * 1000 } := by
    unfold handleAuthorize
    simp [falsy_some_of_ne hci', falsy_some_of_ne hru', hci, hru]
  have hget : getAuth (handleAuthorize (some p) store t0 c).2.auth c =
      some { code := c, clientId := some ci, redirectUri := some ru,
             expiresAt := t0 + 10 * 60 * 1000 } := by
    rw [hstep]
    simpa using getAuth_putAuth_self store.auth
      { code := c, clientId := some ci, redirectUri := some ru,
        expiresAt := t0 + 10 * 60 * 1000 }
  refine ⟨hget, ?_⟩
  have htok : (handleTokenExchange df (some b)
      (handleAuthorize (some p) store t0 c).2 t1 tok).2.token =
      putToken (handleAuthorize (some p) store t0 c).2.token
        { token := tok, clientId := ci2, veluxUserId := none,
          createdAt := t1, expiresAt := t1 + 60 * 60 * 1000 } := by
    unfold handleTokenExchange
    simp [falsy, hb, hf, hc, hci2, hru2, hget, Nat.not_lt.mpr ht]
  rw [htok]
  simpa using getToken_putToken_self
    (handleAuthorize (some p) store t0 c).2.token
    { token := tok, clientId := ci2, veluxUserId := none,
      createdAt := t1, expiresAt := t1 + 60 * 60 * 1000 }

/-- C10.  The exported helper `validateAuthorizationCode` returns true if
and only if the table holds a record for the code whose stored clientId
and redirectUri equal the supplied ones and whose `expiresAt` is strictly
greater than the current time; in every other case it returns false. -/
theorem validateAuthorizationCode_spec (tbl : List AuthItem)
    (code clientId redirectUri : String) (now : Nat) :
    validateAuthorizationCode tbl code clientId redirectUri now = true ↔
      ∃ item, getAuth tbl code = some item ∧
        item.clientId = some clientId ∧ item.redirectUri = some redirectUri ∧
        item.expiresAt > now := by
  unfold validateAuthorizationCode
  cases h : getAuth tbl code <;> simp [h, and_assoc]

/-- Concrete decoded token form used to instantiate the theorems. -/
def wdf : String → TokenForm := fun _ =>
  { code := some "c1", client_id := some "cid",
    redirect_uri := some "https://r", grant_type := some "authorization_code" }

/-- Concrete stored authorization code used to instantiate the theorems. -/
def wrec : AuthItem :=
  { code := "c1", clientId := some "cid", redirectUri := some "https://r",
    expiresAt := 100 }

/-- Concrete store holding `wrec`. -/
def wstore : Store := { auth := [wrec], token := [], user := [] }

/-- Concrete empty store. -/
def wempty : Store := { auth := [], token := [], user := [] }

/-- Concrete authorize query parameters. -/
def wqp : QueryParams :=
  { client_id := some "cid", redirect_uri := some "https://r",
    state := some "xyz" }

/-- Concrete successful JSON parse of a register body. -/
def wpj : String → Except String RegJson := fun _ =>
  .ok { velux_user_id := some "alice", velux_password := some "pw" }

/-- Concrete throwing JSON parse of a register body. -/
def wpjErr : String → Except String RegJson := fun _ =>
  .error "Unexpected token o in JSON at position 1"

/-- Concrete upstream collaborator whose login fails. -/
def wupFail : Upstream := { tokenData := none, homeInfo := { body := { homes := [] } } }

theorem tokenExchange_roundtrip_witness :
    (handleTokenExchange wdf (some "Zg==") wstore 50 "tok").1.statusCode = 200 ∧
    (handleTokenExchange wdf (some "Zg==") wstore 50 "tok").1.body =
      RespBody.tokenJson "tok" "bearer" 3600 ∧ ("tok" : String) ≠ "" :=
  tokenExchange_roundtrip wdf "Zg==" wstore 50 "tok" "c1" "cid" "https://r"
    wrec (by decide) rfl (by decide) (by decide) (by decide) (by decide)
    (by decide) (by decide)

theorem tokenExchange_invalid_code_witness :
    handleTokenExchange wdf (some "Zg==") wempty 0 "tok" =
      ({ statusCode := 400,
         body := RespBody.errorMsg "Invalid or expired authorization code" },
       wempty) ∧
    (handleTokenExchange wdf (some "Zg==") wempty 0 "tok").1.statusCode ≠ 200 :=
  tokenExchange_invalid_code wdf "Zg==" wempty 0 "tok" "c1" "cid" "https://r"
    (by decide) rfl (by decide) (by decide) (by decide) (Or.inl (by decide))

theorem tokenExchange_expiry_boundary_witness :
    (handleTokenExchange wdf (some "Zg==") wstore 100 "tok").1.statusCode = 200 :=
  tokenExchange_expiry_boundary wdf "Zg==" wstore 100 "tok" "c1" "cid"
    "https://r" wrec (by decide) rfl (by decide) (by decide) (by decide)
    (by decide) (by decide)

theorem authorize_ok_witness :
    (handleAuthorize (some wqp) wempty 7 "newcode").1.statusCode = 302 ∧
    (handleAuthorize (some wqp) wempty 7 "newcode").1.location =
      some ("https://r" ++ "?code=" ++ "newcode" ++ "&state=" ++
        (if falsy wqp.state then "" else wqp.state.getD "")) ∧
    getAuth (handleAuthorize (some wqp) wempty 7 "newcode").2.auth "newcode" =
      some { code := "newcode", clientId := some "cid",
             redirectUri := some "https://r", expiresAt := 7 + 10 * 60 * 1000 } ∧
    ((handleAuthorize (some wqp) wempty 7 "newcode").2.auth.filter
      (fun r => r.code == "newcode")).length = 1 ∧
    7 ≤ 7 + 10 * 60 * 1000 ∧
    7 + 10 * 60 * 1000 ≤ 7 + 10 * 60 * 1000 :=
  authorize_ok wqp wempty 7 "newcode" "cid" "https://r" rfl (by decide) rfl
    (by decide)

theorem tokenExchange_invalid_grant_witness :
    handleTokenExchange
      (fun _ => { code := some "c1", client_id := some "cid",
                  redirect_uri := some "https://r",
                  grant_type := some "client_credentials" })
      (some "Zg==") wstore 0 "tok" =
      ({ statusCode := 400, body := RespBody.errorMsg "Invalid grant type" },
       wstore) :=
  tokenExchange_invalid_grant
    (fun _ => { code := some "c1", client_id := some "cid",
                redirect_uri := some "https://r",
                grant_type := some "client_credentials" })
    "Zg==" wstore 0 "tok" "c1" "cid" "https://r" "client_credentials"
    (by decide) rfl (by decide) (by decide) (by decide) (by decide) (by decide)

theorem tokenExchange_missing_body_witness :
    handleTokenExchange wdf none wempty 0 "tok" =
      ({ statusCode := 400, body := RespBody.errorMsg "Missing request body" },
       wempty) :=
  tokenExchange_missing_body wdf none wempty 0 "tok" (Or.inl rfl)

theorem registerUser_login_failure_witness :
    handleRegisterUser wpj wupFail (some "x") wempty 5 "ac" =
      .ok ({ statusCode := 401,
             body := RespBody.errorMsg
               "Error validating credentials against Velux backend!" },
           wempty) :=
  registerUser_login_failure wpj wupFail "x" wempty 5 "ac" "alice" "pw"
    { velux_user_id := some "alice", velux_password := some "pw" }
    (by decide) rfl rfl (by decide) rfl (by decide) rfl

theorem registerUser_parse_failure_500_witness :
    handler wdf wpjErr wupFail
      { method := .POST, rawPath := "/register_user", body := some "notjson" }
      wempty 5 "ac" =
      ({ statusCode := 500, body := RespBody.errorMsg "Internal server error" },
       wempty) :=
  registerUser_parse_failure_500 wdf wpjErr wupFail "notjson"
    "Unexpected token o in JSON at position 1" wempty 5 "ac" (by decide) rfl

theorem authorize_code_unlinked_witness :
    getAuth (handleAuthorize (some wqp) wempty 7 "c1").2.auth "c1" =
      some { code := "c1", clientId := some "cid",
             redirectUri := some "https://r", veluxUserId := none,
             expiresAt := 7 + 10 * 60 * 1000 } ∧
    getToken
      (handleTokenExchange wdf (some "Zg==")
        (handleAuthorize (some wqp) wempty 7 "c1").2 50 "tok").2.token "tok" =
      some { token := "tok", clientId := "cid", veluxUserId := none,
             createdAt := 50, expiresAt := 50 + 60 * 60 * 1000 } :=
  authorize_code_unlinked wqp wempty 7 50 "c1" "cid" "https://r" wdf "Zg=="
    "tok" "cid" "https://r" rfl (by decide) rfl (by decide) (by decide)
    (by decide) rfl (by decide) (by decide) (by decide)

end VeluxIdp
